import Mathlib

/-!
Verification development for the Fuel Cart vouch bot (`bot.py`).

The bot keeps a Postgres-backed points ledger keyed by `(guild_id, user_id)`
(community scoping, the `PER_GUILD = true` configuration, which is the default),
watermarks submitted images, and runs a staff review flow with
verify/reject buttons.  We embed the ledger operations, the moderation
commands, the submission-intake handler `on_message`, and the
`VouchView` decision handlers as pure Lean functions over an explicit
state, and prove the specification's claims about them.

The database is modelled as a partial map from keys to stored integer
balances (`some v` = a row with `points = v`, `none` = no row), matching
the SQL `INSERT ... ON CONFLICT DO UPDATE` upserts in the source.
Points are mathematical integers: the `points` column is a Postgres
`INTEGER` with no `CHECK` constraint, and no claim concerns 32-bit
overflow.
-/

/-- A ledger key: `(guild_id, user_id)`, as in the per-guild `points` table. -/
abbrev Key := Int × Int

/-- The `points` table: `some v` means a row with `points = v` exists for the
key, `none` means no row. -/
abbrev Ledger := Key → Option Int

/-- The empty `points` table. -/
def emptyLedger : Ledger := fun _ => none

/-- Embedding of `get_points` (bot.py lines 114-122): `SELECT points`, and
`return int(row[0]) if row else 0` — 0 when no row exists. -/
def get_points (db : Ledger) (k : Key) : Int :=
  (db k).getD 0

/-- Embedding of `add_points` (bot.py lines 124-145): the atomic upsert
`INSERT ... VALUES (g, u, amount) ON CONFLICT DO UPDATE
SET points = points.points + EXCLUDED.points RETURNING points`.
Inserting into an absent row stores `amount` itself, which equals
`0 + amount`; there is no clamping.  Returns the post-mutation value and
the new table. -/
def add_points (db : Ledger) (k : Key) (amount : Int) : Int × Ledger :=
  let newTotal := (db k).getD 0 + amount
  (newTotal, fun k' => if k' = k then some newTotal else db k')

/-- Embedding of `remove_points` (bot.py lines 147-170): read
`current = get_points(...)`, compute `new_total = max(0, current - amount)`
in Python, then upsert `SET points = EXCLUDED.points` (an overwrite with
`new_total`) and return it. -/
def remove_points (db : Ledger) (k : Key) (amount : Int) : Int × Ledger :=
  let current := get_points db k
  let newTotal := max 0 (current - amount)
  (newTotal, fun k' => if k' = k then some newTotal else db k')

/-- Embedding of `reset_points` (bot.py lines 172-190): upsert
`points = 0` for the key. -/
def reset_points (db : Ledger) (k : Key) : Ledger :=
  fun k' => if k' = k then some 0 else db k'

/-- Messages `cmd_redeem` can send back. -/
inductive RedeemMsg where
  | resetForReward    -- "{user}'s points have been reset for their reward."
  | noPointsToRedeem  -- "{user} has no points to redeem."
  deriving DecidableEq, Repr

/-- Embedding of the `!redeem` command `cmd_redeem` (bot.py lines 395-403):
read the balance; if it is `> 0`, reset it and report success, otherwise
report that there is nothing to redeem without touching the ledger. -/
def cmd_redeem (db : Ledger) (k : Key) : Ledger × RedeemMsg :=
  let total := get_points db k
  if 0 < total then (reset_points db k, RedeemMsg.resetForReward)
  else (db, RedeemMsg.noPointsToRedeem)

theorem get_points_add (db : Ledger) (k : Key) (a : Int) :
    get_points (add_points db k a).2 k = get_points db k + a := by
  simp [get_points, add_points]

theorem get_points_remove (db : Ledger) (k : Key) (a : Int) :
    get_points (remove_points db k a).2 k = max 0 (get_points db k - a) := by
  simp [get_points, remove_points]

theorem get_points_reset (db : Ledger) (k : Key) :
    get_points (reset_points db k) k = 0 := by
  simp [get_points, reset_points]

/-- **C4.** For every key and every non-negative amount, `remove_points`
computes `max(0, current - amount)` where `current` is the stored balance
before the call (0 when the row is absent, by `get_points`), writes that
value as the new stored balance for the key, leaves every other key's row
unchanged, and returns the new value. -/
theorem c4_remove_points_spec (db : Ledger) (k : Key) (a : Int)
    (ha : 0 ≤ a) :
    (remove_points db k a).1 = max 0 (get_points db k - a) ∧
    (remove_points db k a).2 k = some (max 0 (get_points db k - a)) ∧
    ∀ k', k' ≠ k → (remove_points db k a).2 k' = db k' := by
  refine ⟨rfl, ?_, ?_⟩
  · simp [remove_points]
  · intro k' hk
    simp [remove_points, hk]

/-- Witness for C4 at a concrete input: a table holding 3 points for key
`(1, 2)`, removing 5, clamps to 0. -/
theorem c4_witness :
    (0 : Int) ≤ 5 ∧
    ((remove_points (fun k => if k = ((1 : Int), (2 : Int)) then some 3 else none)
        ((1 : Int), (2 : Int)) 5).1 =
      max 0 (get_points (fun k => if k = ((1 : Int), (2 : Int)) then some 3 else none)
        ((1 : Int), (2 : Int)) - 5) ∧
    (remove_points (fun k => if k = ((1 : Int), (2 : Int)) then some 3 else none)
        ((1 : Int), (2 : Int)) 5).2 ((1 : Int), (2 : Int)) =
      some (max 0 (get_points (fun k => if k = ((1 : Int), (2 : Int)) then some 3 else none)
        ((1 : Int), (2 : Int)) - 5)) ∧
    ∀ k', k' ≠ ((1 : Int), (2 : Int)) →
      (remove_points (fun k => if k = ((1 : Int), (2 : Int)) then some 3 else none)
        ((1 : Int), (2 : Int)) 5).2 k' =
      (fun k => if k = ((1 : Int), (2 : Int)) then some 3 else none) k') :=
  ⟨by decide,
   c4_remove_points_spec (fun k => if k = ((1 : Int), (2 : Int)) then some 3 else none)
     ((1 : Int), (2 : Int)) 5 (by decide)⟩

/-- **C10.** When the stored balance is non-negative and the amount passed to
`remove_points` is negative (reachable, since `!removepoints` hands any
integer argument straight to `remove_points`), the clamp computes
`max(0, current - a) = current + |a|`: revoking a negative amount grants
points.  Both the returned value and the newly stored value equal
`current + (-a)`. -/
theorem c10_negative_remove_grants (db : Ledger) (k : Key) (a : Int)
    (ha : a < 0) (hcur : 0 ≤ get_points db k) :
    (remove_points db k a).1 = get_points db k + (-a) ∧
    get_points (remove_points db k a).2 k = get_points db k + (-a) := by
  have hmax : max 0 (get_points db k - a) = get_points db k + (-a) := by
    rw [max_eq_right] <;> omega
  constructor
  · show max 0 (get_points db k - a) = _
    exact hmax
  · rw [get_points_remove, hmax]

/-- Witness for C10 at a concrete input: balance 4 for key `(1, 2)`,
`remove_points` with amount `-3` yields 7. -/
theorem c10_witness :
    (-3 : Int) < 0 ∧
    (0 : Int) ≤ get_points (fun k => if k = ((1 : Int), (2 : Int)) then some 4 else none)
        ((1 : Int), (2 : Int)) ∧
    ((remove_points (fun k => if k = ((1 : Int), (2 : Int)) then some 4 else none)
        ((1 : Int), (2 : Int)) (-3)).1 =
      get_points (fun k => if k = ((1 : Int), (2 : Int)) then some 4 else none)
        ((1 : Int), (2 : Int)) + (-(-3)) ∧
    get_points (remove_points (fun k => if k = ((1 : Int), (2 : Int)) then some 4 else none)
        ((1 : Int), (2 : Int)) (-3)).2 ((1 : Int), (2 : Int)) =
      get_points (fun k => if k = ((1 : Int), (2 : Int)) then some 4 else none)
        ((1 : Int), (2 : Int)) + (-(-3))) :=
  ⟨by decide, by decide,
   c10_negative_remove_grants
     (fun k => if k = ((1 : Int), (2 : Int)) then some 4 else none)
     ((1 : Int), (2 : Int)) (-3) (by decide) (by decide)⟩

/-- **C8.** Redeem semantics: when the stored balance is 0, `cmd_redeem`
reports "no points to redeem" and performs no ledger mutation (the table is
returned unchanged, so the balance stays 0); when the balance is positive,
it resets the balance to 0 and reports success. -/
theorem c8_redeem_spec (db : Ledger) (k : Key) :
    (get_points db k = 0 →
      cmd_redeem db k = (db, RedeemMsg.noPointsToRedeem)) ∧
    (0 < get_points db k →
      (cmd_redeem db k).2 = RedeemMsg.resetForReward ∧
      get_points (cmd_redeem db k).1 k = 0) := by
  constructor
  · intro h0
    simp [cmd_redeem, h0]
  · intro hpos
    have heq : cmd_redeem db k = (reset_points db k, RedeemMsg.resetForReward) := by
      simp [cmd_redeem, hpos]
    rw [heq]
    exact ⟨rfl, get_points_reset db k⟩

/-- Witness for C8 at concrete inputs: with key `(1, 2)` absent (balance 0)
redeem leaves the table unchanged and reports nothing to redeem; with
balance 5 it reports success and zeroes the balance. -/
theorem c8_witness :
    (get_points emptyLedger ((1 : Int), (2 : Int)) = 0 ∧
      cmd_redeem emptyLedger ((1 : Int), (2 : Int)) =
        (emptyLedger, RedeemMsg.noPointsToRedeem)) ∧
    (0 < get_points (fun k => if k = ((1 : Int), (2 : Int)) then some 5 else none)
        ((1 : Int), (2 : Int)) ∧
      (cmd_redeem (fun k => if k = ((1 : Int), (2 : Int)) then some 5 else none)
        ((1 : Int), (2 : Int))).2 = RedeemMsg.resetForReward ∧
      get_points (cmd_redeem (fun k => if k = ((1 : Int), (2 : Int)) then some 5 else none)
        ((1 : Int), (2 : Int))).1 ((1 : Int), (2 : Int)) = 0) :=
  ⟨⟨by decide, (c8_redeem_spec emptyLedger ((1 : Int), (2 : Int))).1 (by decide)⟩,
   ⟨by decide,
    (c8_redeem_spec (fun k => if k = ((1 : Int), (2 : Int)) then some 5 else none)
      ((1 : Int), (2 : Int))).2 (by decide)⟩⟩

/-!
Sequences of ledger operations reachable through the program's public
surface: the staff commands `!addpoints`, `!removepoints`, `!resetpoints`,
`!redeem` (bot.py lines 371-403) and the verify button's credit
`add_points(member_id, 1)` (bot.py line 248).  `cmd_addpoints` and
`cmd_removepoints` pass their `points: int` argument — any integer —
straight through to `add_points` / `remove_points`.
-/

/-- One ledger mutation reachable from the public surface. -/
inductive LedgerOp where
  | add (k : Key) (amount : Int)        -- !addpoints (any integer amount)
  | remove (k : Key) (amount : Int)     -- !removepoints (any integer amount)
  | reset (k : Key)                     -- !resetpoints
  | redeem (k : Key)                    -- !redeem
  | approveCredit (k : Key)             -- verify button: add_points(member, 1)
  deriving Repr

/-- Effect of one public-surface operation on the `points` table, each via
the embedded ledger function it calls in the source. -/
def applyLedgerOp (db : Ledger) : LedgerOp → Ledger
  | .add k a => (add_points db k a).2
  | .remove k a => (remove_points db k a).2
  | .reset k => reset_points db k
  | .redeem k => (cmd_redeem db k).1
  | .approveCredit k => (add_points db k 1).2

/-- Runs a sequence of public-surface operations left to right. -/
def runLedgerOps (db : Ledger) (ops : List LedgerOp) : Ledger :=
  ops.foldl applyLedgerOp db

/-- An operation whose `add` amount (if any) is non-negative. -/
def LedgerOp.okAmount : LedgerOp → Bool
  | .add _ a => decide (0 ≤ a)
  | _ => true

theorem get_points_add_ne (db : Ledger) (k k' : Key) (a : Int)
    (h : k' ≠ k) : get_points (add_points db k a).2 k' = get_points db k' := by
  simp [get_points, add_points, h]

theorem get_points_remove_ne (db : Ledger) (k k' : Key) (a : Int)
    (h : k' ≠ k) : get_points (remove_points db k a).2 k' = get_points db k' := by
  simp [get_points, remove_points, h]

theorem get_points_reset_ne (db : Ledger) (k k' : Key)
    (h : k' ≠ k) : get_points (reset_points db k) k' = get_points db k' := by
  simp [get_points, reset_points, h]

theorem applyLedgerOp_nonneg (db : Ledger) (op : LedgerOp)
    (hdb : ∀ k, 0 ≤ get_points db k) (hop : op.okAmount = true) :
    ∀ k', 0 ≤ get_points (applyLedgerOp db op) k' := by
  intro k'
  cases op with
  | add k a =>
    have ha : (0 : Int) ≤ a := by simpa [LedgerOp.okAmount] using hop
    by_cases hk : k' = k
    · subst hk
      show 0 ≤ get_points (add_points db k' a).2 k'
      rw [get_points_add]
      have := hdb k'
      omega
    · show 0 ≤ get_points (add_points db k a).2 k'
      rw [get_points_add_ne db k k' a hk]
      exact hdb k'
  | remove k a =>
    by_cases hk : k' = k
    · subst hk
      show 0 ≤ get_points (remove_points db k' a).2 k'
      rw [get_points_remove]
      exact le_max_left _ _
    · show 0 ≤ get_points (remove_points db k a).2 k'
      rw [get_points_remove_ne db k k' a hk]
      exact hdb k'
  | reset k =>
    by_cases hk : k' = k
    · subst hk
      show 0 ≤ get_points (reset_points db k') k'
      rw [get_points_reset]
    · show 0 ≤ get_points (reset_points db k) k'
      rw [get_points_reset_ne db k k' hk]
      exact hdb k'
  | redeem k =>
    show 0 ≤ get_points (cmd_redeem db k).1 k'
    by_cases hpos : 0 < get_points db k
    · have h1 : (cmd_redeem db k).1 = reset_points db k := by
        simp [cmd_redeem, hpos]
      rw [h1]
      by_cases hk : k' = k
      · subst hk; rw [get_points_reset]
      · rw [get_points_reset_ne db k k' hk]; exact hdb k'
    · have h1 : (cmd_redeem db k).1 = db := by
        simp [cmd_redeem, hpos]
      rw [h1]
      exact hdb k'
  | approveCredit k =>
    by_cases hk : k' = k
    · subst hk
      show 0 ≤ get_points (add_points db k' 1).2 k'
      rw [get_points_add]
      have := hdb k'
      omega
    · show 0 ≤ get_points (add_points db k 1).2 k'
      rw [get_points_add_ne db k k' 1 hk]
      exact hdb k'

theorem runLedgerOps_nonneg (ops : List LedgerOp) :
    ∀ db : Ledger, (∀ k, 0 ≤ get_points db k) →
      (∀ op ∈ ops, op.okAmount = true) →
      ∀ k, 0 ≤ get_points (runLedgerOps db ops) k := by
  induction ops with
  | nil => intro db hdb _ k; exact hdb k
  | cons op rest ih =>
    intro db hdb hops k
    have hstep := applyLedgerOp_nonneg db op hdb (hops op (List.mem_cons_self op rest))
    exact ih (applyLedgerOp db op) hstep
      (fun o ho => hops o (List.mem_cons_of_mem op ho)) k

/-- **C1 counterexample.** The claimed invariant fails as stated: the public
surface includes `!addpoints` with an arbitrary integer amount, and
`add_points` does not clamp.  Starting from an empty table, the single
reachable operation `add (1, 2) (-5)` leaves a stored row of `-5`, a
negative stored points value. -/
theorem c1_counterexample :
    runLedgerOps emptyLedger [LedgerOp.add ((1 : Int), (2 : Int)) (-5)]
        ((1 : Int), (2 : Int)) = some (-5) ∧
    get_points (runLedgerOps emptyLedger [LedgerOp.add ((1 : Int), (2 : Int)) (-5)])
        ((1 : Int), (2 : Int)) < 0 := by
  decide

/-- **C1 (amended).** Ledger non-negativity invariant, restricted to the
sequences in which every `!addpoints` amount is non-negative: starting from
the empty table, after any such sequence of public-surface operations
(`!removepoints` with any integer, `!resetpoints`, `!redeem`, and the
verify button's `+1` credit remain unrestricted), every key's balance is
non-negative.  Since every prefix of such a sequence is again such a
sequence, the balance is non-negative at every intermediate point as
well. -/
theorem c1_nonneg_of_nonneg_adds (ops : List LedgerOp)
    (h : ∀ op ∈ ops, op.okAmount = true) (k : Key) :
    0 ≤ get_points (runLedgerOps emptyLedger ops) k :=
  runLedgerOps_nonneg ops emptyLedger (fun _ => le_refl 0) h k

/-- Witness for the amended C1 at a concrete input: grant 3, remove 5,
approve once — the final balance of the touched key is non-negative. -/
theorem c1_witness :
    (∀ op ∈ [LedgerOp.add ((1 : Int), (2 : Int)) 3,
             LedgerOp.remove ((1 : Int), (2 : Int)) 5,
             LedgerOp.approveCredit ((1 : Int), (2 : Int))], op.okAmount = true) ∧
    0 ≤ get_points (runLedgerOps emptyLedger
          [LedgerOp.add ((1 : Int), (2 : Int)) 3,
           LedgerOp.remove ((1 : Int), (2 : Int)) 5,
           LedgerOp.approveCredit ((1 : Int), (2 : Int))]) ((1 : Int), (2 : Int)) :=
  ⟨by decide,
   c1_nonneg_of_nonneg_adds
     [LedgerOp.add ((1 : Int), (2 : Int)) 3,
      LedgerOp.remove ((1 : Int), (2 : Int)) 5,
      LedgerOp.approveCredit ((1 : Int), (2 : Int))]
     (by decide) ((1 : Int), (2 : Int))⟩

/-!
Sequences of `add_points` / `remove_points` on a single key (claim C3).
The balance a single key sees through such a sequence is the left fold of
the per-call balance updates: `add` is `b + a` (the upsert
`points = points + amount`), `remove` is `max 0 (b - a)` (the Python-side
clamp followed by an overwrite upsert).
-/

/-- One add or remove call on a fixed key. -/
inductive PointsOp where
  | add (amount : Int)
  | remove (amount : Int)
  deriving Repr

/-- Effect of one call on the table, via the embedded source functions. -/
def applyPointsOp (db : Ledger) (k : Key) : PointsOp → Ledger
  | .add a => (add_points db k a).2
  | .remove a => (remove_points db k a).2

/-- Runs a sequence of add/remove calls on one key, left to right. -/
def runPointsOps (db : Ledger) (k : Key) (ops : List PointsOp) : Ledger :=
  ops.foldl (fun d op => applyPointsOp d k op) db

/-- Balance-level effect of one call: what the stored balance of the key
becomes, as a function of its previous value. -/
def applyBal (b : Int) : PointsOp → Int
  | .add a => b + a
  | .remove a => max 0 (b - a)

/-- Sum of the amounts of the `add` operations in a sequence. -/
def sumAdds : List PointsOp → Int
  | [] => 0
  | .add a :: rest => a + sumAdds rest
  | .remove _ :: rest => sumAdds rest

/-- Sum of the amounts of the `remove` operations in a sequence. -/
def sumRemoves : List PointsOp → Int
  | [] => 0
  | .add _ :: rest => sumRemoves rest
  | .remove a :: rest => a + sumRemoves rest

/-- An operation whose amount is non-negative. -/
def PointsOp.amountNonneg : PointsOp → Bool
  | .add a => decide (0 ≤ a)
  | .remove a => decide (0 ≤ a)

theorem get_runPointsOps (ops : List PointsOp) :
    ∀ db : Ledger, ∀ k : Key,
      get_points (runPointsOps db k ops) k = ops.foldl applyBal (get_points db k) := by
  induction ops with
  | nil => intro db k; rfl
  | cons op rest ih =>
    intro db k
    have hstep : get_points (applyPointsOp db k op) k = applyBal (get_points db k) op := by
      cases op with
      | add a => exact get_points_add db k a
      | remove a => exact get_points_remove db k a
    calc get_points (runPointsOps db k (op :: rest)) k
        = get_points (runPointsOps (applyPointsOp db k op) k rest) k := rfl
      _ = rest.foldl applyBal (get_points (applyPointsOp db k op) k) := ih _ k
      _ = rest.foldl applyBal (applyBal (get_points db k) op) := by rw [hstep]
      _ = (op :: rest).foldl applyBal (get_points db k) := rfl

theorem foldl_applyBal_nonneg (ops : List PointsOp)
    (h : ∀ op ∈ ops, op.amountNonneg = true) :
    ∀ b : Int, 0 ≤ b → 0 ≤ ops.foldl applyBal b := by
  induction ops with
  | nil => intro b hb; exact hb
  | cons op rest ih =>
    intro b hb
    have hrest := fun o ho => h o (List.mem_cons_of_mem op ho)
    have hop := h op (List.mem_cons_self op rest)
    cases op with
    | add a =>
      have ha : (0 : Int) ≤ a := by simpa [PointsOp.amountNonneg] using hop
      exact ih hrest (b + a) (by omega)
    | remove a =>
      exact ih hrest (max 0 (b - a)) (le_max_left _ _)

theorem foldl_applyBal_lower (ops : List PointsOp) :
    ∀ b : Int, b + sumAdds ops - sumRemoves ops ≤ ops.foldl applyBal b := by
  induction ops with
  | nil => intro b; simp [sumAdds, sumRemoves]
  | cons op rest ih =>
    intro b
    cases op with
    | add a =>
      have := ih (b + a)
      simp only [sumAdds, sumRemoves, List.foldl_cons, applyBal]
      omega
    | remove a =>
      have h1 := ih (max 0 (b - a))
      have h2 : b - a ≤ max 0 (b - a) := le_max_right _ _
      simp only [sumAdds, sumRemoves, List.foldl_cons, applyBal]
      omega

/-- **C3 counterexample.** The claimed closed form fails as stated: on the
sequence `add 5, remove 10, add 3` (all amounts non-negative) the clamped
fold yields balance 3, while `max(0, sum_of_adds - sum_of_removes)
= max(0, 8 - 10) = 0`. -/
theorem c3_counterexample :
    (∀ op ∈ [PointsOp.add 5, PointsOp.remove 10, PointsOp.add 3],
      op.amountNonneg = true) ∧
    sumAdds [PointsOp.add 5, PointsOp.remove 10, PointsOp.add 3] = 8 ∧
    sumRemoves [PointsOp.add 5, PointsOp.remove 10, PointsOp.add 3] = 10 ∧
    get_points (runPointsOps emptyLedger ((1 : Int), (2 : Int))
        [PointsOp.add 5, PointsOp.remove 10, PointsOp.add 3]) ((1 : Int), (2 : Int)) = 3 ∧
    get_points (runPointsOps emptyLedger ((1 : Int), (2 : Int))
        [PointsOp.add 5, PointsOp.remove 10, PointsOp.add 3]) ((1 : Int), (2 : Int)) ≠
      max 0 (sumAdds [PointsOp.add 5, PointsOp.remove 10, PointsOp.add 3] -
             sumRemoves [PointsOp.add 5, PointsOp.remove 10, PointsOp.add 3]) := by
  decide

/-- **C3 (amended).** For every key and every finite sequence of add and
remove operations with non-negative amounts, applied sequentially starting
from an absent record, the resulting balance is the in-order clamped fold
of the operations; it is never negative, and it is bounded below by
`max(0, sum_of_adds - sum_of_removes)` — but equality with that closed
form can fail when an add follows a clamped remove.  Since every prefix of
such a sequence is again such a sequence, the balance is non-negative at
every intermediate point. -/
theorem c3_clamped_fold_bounds (k : Key) (ops : List PointsOp)
    (h : ∀ op ∈ ops, op.amountNonneg = true) :
    get_points (runPointsOps emptyLedger k ops) k = ops.foldl applyBal 0 ∧
    0 ≤ get_points (runPointsOps emptyLedger k ops) k ∧
    max 0 (sumAdds ops - sumRemoves ops) ≤
      get_points (runPointsOps emptyLedger k ops) k := by
  have hrun : get_points (runPointsOps emptyLedger k ops) k = ops.foldl applyBal 0 :=
    get_runPointsOps ops emptyLedger k
  have hnn : 0 ≤ ops.foldl applyBal 0 := foldl_applyBal_nonneg ops h 0 (le_refl 0)
  have hlow := foldl_applyBal_lower ops 0
  refine ⟨hrun, by rw [hrun]; exact hnn, ?_⟩
  rw [hrun]
  have : sumAdds ops - sumRemoves ops ≤ ops.foldl applyBal 0 := by omega
  exact max_le hnn this

/-- Witness for the amended C3 at the concrete sequence
`add 5, remove 10, add 3` on key `(1, 2)`. -/
theorem c3_witness :
    (∀ op ∈ [PointsOp.add 5, PointsOp.remove 10, PointsOp.add 3],
      op.amountNonneg = true) ∧
    (get_points (runPointsOps emptyLedger ((1 : Int), (2 : Int))
        [PointsOp.add 5, PointsOp.remove 10, PointsOp.add 3]) ((1 : Int), (2 : Int)) =
      [PointsOp.add 5, PointsOp.remove 10, PointsOp.add 3].foldl applyBal 0 ∧
    0 ≤ get_points (runPointsOps emptyLedger ((1 : Int), (2 : Int))
        [PointsOp.add 5, PointsOp.remove 10, PointsOp.add 3]) ((1 : Int), (2 : Int)) ∧
    max 0 (sumAdds [PointsOp.add 5, PointsOp.remove 10, PointsOp.add 3] -
           sumRemoves [PointsOp.add 5, PointsOp.remove 10, PointsOp.add 3]) ≤
      get_points (runPointsOps emptyLedger ((1 : Int), (2 : Int))
        [PointsOp.add 5, PointsOp.remove 10, PointsOp.add 3]) ((1 : Int), (2 : Int))) :=
  ⟨by decide,
   c3_clamped_fold_bounds ((1 : Int), (2 : Int))
     [PointsOp.add 5, PointsOp.remove 10, PointsOp.add 3] (by decide)⟩

/-!
The review flow (claims C2, C6, C7, and the terminal-cleanup part of C9).

A `VouchView` (bot.py lines 224-307) holds `member_id`, `vouch_text`,
`image_path` and a boolean `_locked` flag, initially false.  Each button
handler first checks `_locked`: if set, it answers only with the ephemeral
"Already processing…" message and returns; otherwise it sets `_locked`
and proceeds.  We model the observable world of one Case: the ledger, the
lock, whether the temporary watermarked file still exists, the list of
messages sent to the public vouches channel, the state of the moderation
message, and the ephemeral acknowledgments sent to the pressing staff
member.  Platform conditions are inputs per button press: whether
`interaction.guild.fetch_member` succeeds (`memberFound`) and whether
`bot.get_channel(TARGET_CHANNEL_ID)` returns a channel
(`publicChannelOk`).
-/

/-- Which button was pressed. -/
inductive DecisionKind where
  | approve
  | reject
  deriving DecidableEq, Repr

/-- One button press: the kind, the pressing staff member's id, and the
platform conditions in effect during the handler. -/
structure DecisionInput where
  kind : DecisionKind
  actor : Int
  memberFound : Bool
  publicChannelOk : Bool
  deriving DecidableEq, Repr

/-- A message sent to the public vouches channel by a decision handler. -/
inductive PubMsg where
  | verified (memberId total : Int)  -- "Verified ... vouch for <@id>! They now have {total} points." with the image
  | rejectedNotice (memberId : Int)  -- "A ... vouch submission for <@id> was rejected."
  deriving DecidableEq, Repr

/-- State of the moderation message in the review channel.  The two
terminal states model the `interaction.message.edit(..., embed=None,
view=None)` calls: the decision text with the controls removed. -/
inductive ModMsg where
  | pending
  | verifiedBy (actor memberId : Int)
  | rejectedBy (actor memberId : Int)
  deriving DecidableEq, Repr

/-- An ephemeral acknowledgment sent to the pressing staff member. -/
inductive Ack where
  | alreadyProcessing  -- "Already processing…"
  | verifiedPosted     -- "... vouch verified and posted."
  | userNotFound       -- "User not found."
  | rejectedAck        -- "... vouch rejected."
  deriving DecidableEq, Repr

/-- Observable state of one Review Case and its surroundings. -/
structure CaseWorld where
  db : Ledger
  guildId : Int
  memberId : Int
  locked : Bool
  fileExists : Bool
  publicMsgs : List PubMsg
  modMsg : ModMsg
  acks : List Ack

/-- Embedding of `VouchView.verify_button` (bot.py lines 239-281).  If
`_locked`, only the "Already processing…" ephemeral is sent.  Otherwise
the flag is set, `add_points(member_id, 1)` runs first, then
`fetch_member`: on success the public channel (when found, and when the
temp file still exists) receives the verified post with the new total,
the moderation message is edited to its terminal state and the staff
member gets the success ephemeral; on `discord.NotFound` the handler
jumps to the `except` clause — the credit already happened and is not
rolled back — and only "User not found." is sent.  The `finally` block
deletes the temporary file on both paths. -/
def verify_button (w : CaseWorld) (inp : DecisionInput) : CaseWorld :=
  if w.locked then { w with acks := w.acks ++ [Ack.alreadyProcessing] }
  else
    let res := add_points w.db (w.guildId, w.memberId) 1
    if inp.memberFound then
      { w with
        locked := true
        db := res.2
        publicMsgs :=
          if inp.publicChannelOk && w.fileExists then
            w.publicMsgs ++ [PubMsg.verified w.memberId res.1]
          else w.publicMsgs
        modMsg := ModMsg.verifiedBy inp.actor w.memberId
        acks := w.acks ++ [Ack.verifiedPosted]
        fileExists := false }
    else
      { w with
        locked := true
        db := res.2
        acks := w.acks ++ [Ack.userNotFound]
        fileExists := false }

/-- Embedding of `VouchView.reject_button` (bot.py lines 283-307).  If
`_locked`, only the "Already processing…" ephemeral is sent.  Otherwise
the flag is set, the public channel (when found) receives the rejection
notice referencing the submitter, the moderation message is edited to its
terminal state with controls removed, the staff member gets the rejected
ephemeral, and the `finally` block deletes the temporary file.  The
ledger is never touched.  Note: in the source, the edit's f-string at
line 297 contains an unmatched closing parenthesis
(`{interaction.user.mention)}`), which is a Python syntax error; the edit
is modelled with its evident intended content. -/
def reject_button (w : CaseWorld) (inp : DecisionInput) : CaseWorld :=
  if w.locked then { w with acks := w.acks ++ [Ack.alreadyProcessing] }
  else
    { w with
      locked := true
      publicMsgs :=
        if inp.publicChannelOk then
          w.publicMsgs ++ [PubMsg.rejectedNotice w.memberId]
        else w.publicMsgs
      modMsg := ModMsg.rejectedBy inp.actor w.memberId
      acks := w.acks ++ [Ack.rejectedAck]
      fileExists := false }

/-- Dispatches one button press to its handler. -/
def decisionStep (w : CaseWorld) (inp : DecisionInput) : CaseWorld :=
  match inp.kind with
  | DecisionKind.approve => verify_button w inp
  | DecisionKind.reject => reject_button w inp

/-- Runs a sequence of button presses on one Case, left to right. -/
def runDecisions (w : CaseWorld) (ds : List DecisionInput) : CaseWorld :=
  ds.foldl decisionStep w

theorem decisionStep_locked (w : CaseWorld) (inp : DecisionInput)
    (h : w.locked = true) :
    decisionStep w inp = { w with acks := w.acks ++ [Ack.alreadyProcessing] } := by
  cases hk : inp.kind <;>
    simp [decisionStep, verify_button, reject_button, hk, h]

theorem decisionStep_locks (w : CaseWorld) (inp : DecisionInput)
    (h : w.locked = false) : (decisionStep w inp).locked = true := by
  cases hk : inp.kind with
  | approve =>
    cases hm : inp.memberFound <;>
      simp [decisionStep, verify_button, hk, h, hm]
  | reject =>
    simp [decisionStep, reject_button, hk, h]

theorem runDecisions_locked (ds : List DecisionInput) :
    ∀ w : CaseWorld, w.locked = true →
      runDecisions w ds =
        { w with acks := w.acks ++ ds.map (fun _ => Ack.alreadyProcessing) } := by
  induction ds with
  | nil => intro w _; simp [runDecisions]
  | cons d rest ih =>
    intro w h
    have h1 : runDecisions w (d :: rest) = runDecisions (decisionStep w d) rest := rfl
    rw [h1, decisionStep_locked w d h]
    rw [ih { w with acks := w.acks ++ [Ack.alreadyProcessing] } h]
    simp

theorem decisionStep_balance (w : CaseWorld) (d : DecisionInput)
    (h : w.locked = false) :
    get_points (decisionStep w d).db (w.guildId, w.memberId) =
      get_points w.db (w.guildId, w.memberId) +
        (match d.kind with
         | DecisionKind.approve => 1
         | DecisionKind.reject => 0) := by
  cases hk : d.kind with
  | approve =>
    cases hm : d.memberFound <;>
      simp [decisionStep, verify_button, hk, h, hm, get_points_add]
  | reject =>
    simp [decisionStep, reject_button, hk, h]

/-- **C2 counterexample.** The claim's final clause fails as stated: a
sequence containing at least one approve need not credit the ledger at
all.  On a fresh pending Case, pressing reject first flips the latch, so
the later approve is answered with the "already processing" acknowledgment
and never calls `add_points`: the submitter's balance stays 0, not the
claimed exactly-one credit. -/
theorem c2_counterexample :
    ([DecisionInput.mk DecisionKind.reject 7 true true,
      DecisionInput.mk DecisionKind.approve 8 true true].any
        (fun d => decide (d.kind = DecisionKind.approve))) = true ∧
    get_points (runDecisions
        { db := emptyLedger, guildId := 1, memberId := 2, locked := false,
          fileExists := true, publicMsgs := [], modMsg := ModMsg.pending, acks := [] }
        [DecisionInput.mk DecisionKind.reject 7 true true,
         DecisionInput.mk DecisionKind.approve 8 true true]).db
      ((1 : Int), (2 : Int)) = 0 ∧
    get_points (runDecisions
        { db := emptyLedger, guildId := 1, memberId := 2, locked := false,
          fileExists := true, publicMsgs := [], modMsg := ModMsg.pending, acks := [] }
        [DecisionInput.mk DecisionKind.reject 7 true true,
         DecisionInput.mk DecisionKind.approve 8 true true]).db
      ((1 : Int), (2 : Int)) ≠ 1 := by
  refine ⟨rfl, rfl, ?_⟩
  decide

/-- **C2 (amended).** Single resolution of a Review Case: starting from a
pending (unlatched) Case, after the first decision every subsequent
decision attempt — a second approve, a second reject, or approve followed
by reject — performs no ledger mutation, sends no further public message,
does not change the moderation message or the file state, and is answered
only with the "already processing" acknowledgment.  The ledger is
credited exactly once when the first decision is an approve and zero
times when it is a reject (even if approves follow). -/
theorem c2_single_resolution (w : CaseWorld) (d : DecisionInput)
    (ds : List DecisionInput) (h : w.locked = false) :
    (runDecisions w (d :: ds)).db = (decisionStep w d).db ∧
    (runDecisions w (d :: ds)).publicMsgs = (decisionStep w d).publicMsgs ∧
    (runDecisions w (d :: ds)).modMsg = (decisionStep w d).modMsg ∧
    (runDecisions w (d :: ds)).fileExists = (decisionStep w d).fileExists ∧
    (runDecisions w (d :: ds)).acks =
      (decisionStep w d).acks ++ ds.map (fun _ => Ack.alreadyProcessing) ∧
    get_points (runDecisions w (d :: ds)).db (w.guildId, w.memberId) =
      get_points w.db (w.guildId, w.memberId) +
        (match d.kind with
         | DecisionKind.approve => 1
         | DecisionKind.reject => 0) := by
  have h1 : runDecisions w (d :: ds) = runDecisions (decisionStep w d) ds := rfl
  have h2 := runDecisions_locked ds (decisionStep w d) (decisionStep_locks w d h)
  rw [h1, h2]
  exact ⟨rfl, rfl, rfl, rfl, rfl, decisionStep_balance w d h⟩

/-- Witness for the amended C2 at a concrete input: a fresh Case, approve
then a duplicate approve and a late reject. -/
theorem c2_witness :
    ({ db := emptyLedger, guildId := 1, memberId := 2, locked := false,
       fileExists := true, publicMsgs := [], modMsg := ModMsg.pending,
       acks := [] : CaseWorld }.locked = false) ∧
    ((runDecisions
        { db := emptyLedger, guildId := 1, memberId := 2, locked := false,
          fileExists := true, publicMsgs := [], modMsg := ModMsg.pending, acks := [] }
        (DecisionInput.mk DecisionKind.approve 7 true true ::
          [DecisionInput.mk DecisionKind.approve 8 true true,
           DecisionInput.mk DecisionKind.reject 9 true true])).db =
      (decisionStep
        { db := emptyLedger, guildId := 1, memberId := 2, locked := false,
          fileExists := true, publicMsgs := [], modMsg := ModMsg.pending, acks := [] }
        (DecisionInput.mk DecisionKind.approve 7 true true)).db ∧
    (runDecisions
        { db := emptyLedger, guildId := 1, memberId := 2, locked := false,
          fileExists := true, publicMsgs := [], modMsg := ModMsg.pending, acks := [] }
        (DecisionInput.mk DecisionKind.approve 7 true true ::
          [DecisionInput.mk DecisionKind.approve 8 true true,
           DecisionInput.mk DecisionKind.reject 9 true true])).publicMsgs =
      (decisionStep
        { db := emptyLedger, guildId := 1, memberId := 2, locked := false,
          fileExists := true, publicMsgs := [], modMsg := ModMsg.pending, acks := [] }
        (DecisionInput.mk DecisionKind.approve 7 true true)).publicMsgs ∧
    (runDecisions
        { db := emptyLedger, guildId := 1, memberId := 2, locked := false,
          fileExists := true, publicMsgs := [], modMsg := ModMsg.pending, acks := [] }
        (DecisionInput.mk DecisionKind.approve 7 true true ::
          [DecisionInput.mk DecisionKind.approve 8 true true,
           DecisionInput.mk DecisionKind.reject 9 true true])).modMsg =
      (decisionStep
        { db := emptyLedger, guildId := 1, memberId := 2, locked := false,
          fileExists := true, publicMsgs := [], modMsg := ModMsg.pending, acks := [] }
        (DecisionInput.mk DecisionKind.approve 7 true true)).modMsg ∧
    (runDecisions
        { db := emptyLedger, guildId := 1, memberId := 2, locked := false,
          fileExists := true, publicMsgs := [], modMsg := ModMsg.pending, acks := [] }
        (DecisionInput.mk DecisionKind.approve 7 true true ::
          [DecisionInput.mk DecisionKind.approve 8 true true,
           DecisionInput.mk DecisionKind.reject 9 true true])).fileExists =
      (decisionStep
        { db := emptyLedger, guildId := 1, memberId := 2, locked := false,
          fileExists := true, publicMsgs := [], modMsg := ModMsg.pending, acks := [] }
        (DecisionInput.mk DecisionKind.approve 7 true true)).fileExists ∧
    (runDecisions
        { db := emptyLedger, guildId := 1, memberId := 2, locked := false,
          fileExists := true, publicMsgs := [], modMsg := ModMsg.pending, acks := [] }
        (DecisionInput.mk DecisionKind.approve 7 true true ::
          [DecisionInput.mk DecisionKind.approve 8 true true,
           DecisionInput.mk DecisionKind.reject 9 true true])).acks =
      (decisionStep
        { db := emptyLedger, guildId := 1, memberId := 2, locked := false,
          fileExists := true, publicMsgs := [], modMsg := ModMsg.pending, acks := [] }
        (DecisionInput.mk DecisionKind.approve 7 true true)).acks ++
        [DecisionInput.mk DecisionKind.approve 8 true true,
         DecisionInput.mk DecisionKind.reject 9 true true].map
          (fun _ => Ack.alreadyProcessing) ∧
    get_points (runDecisions
        { db := emptyLedger, guildId := 1, memberId := 2, locked := false,
          fileExists := true, publicMsgs := [], modMsg := ModMsg.pending, acks := [] }
        (DecisionInput.mk DecisionKind.approve 7 true true ::
          [DecisionInput.mk DecisionKind.approve 8 true true,
           DecisionInput.mk DecisionKind.reject 9 true true])).db
        (({ db := emptyLedger, guildId := 1, memberId := 2, locked := false,
            fileExists := true, publicMsgs := [], modMsg := ModMsg.pending,
            acks := [] : CaseWorld }).guildId,
         ({ db := emptyLedger, guildId := 1, memberId := 2, locked := false,
            fileExists := true, publicMsgs := [], modMsg := ModMsg.pending,
            acks := [] : CaseWorld }).memberId) =
      get_points emptyLedger
        (({ db := emptyLedger, guildId := 1, memberId := 2, locked := false,
            fileExists := true, publicMsgs := [], modMsg := ModMsg.pending,
            acks := [] : CaseWorld }).guildId,
         ({ db := emptyLedger, guildId := 1, memberId := 2, locked := false,
            fileExists := true, publicMsgs := [], modMsg := ModMsg.pending,
            acks := [] : CaseWorld }).memberId) +
        (match (DecisionInput.mk DecisionKind.approve 7 true true).kind with
         | DecisionKind.approve => 1
         | DecisionKind.reject => 0)) :=
  ⟨rfl,
   c2_single_resolution
     { db := emptyLedger, guildId := 1, memberId := 2, locked := false,
       fileExists := true, publicMsgs := [], modMsg := ModMsg.pending, acks := [] }
     (DecisionInput.mk DecisionKind.approve 7 true true)
     [DecisionInput.mk DecisionKind.approve 8 true true,
      DecisionInput.mk DecisionKind.reject 9 true true]
     rfl⟩

/-- **C7.** Approve credit is not rolled back on display failure: on a
pending Case, when the approve handler's `fetch_member` fails
(`memberFound = false`), the `add_points(member_id, 1)` that already ran
is kept — the submitter's balance ends at its previous value plus 1 — and
the failure is reported to the resolving actor separately as the
"User not found." ephemeral; no public post is made and the moderation
message is not edited on that path. -/
theorem c7_credit_not_rolled_back (w : CaseWorld) (inp : DecisionInput)
    (h : w.locked = false) (hk : inp.kind = DecisionKind.approve)
    (hm : inp.memberFound = false) :
    get_points (decisionStep w inp).db (w.guildId, w.memberId) =
      get_points w.db (w.guildId, w.memberId) + 1 ∧
    (decisionStep w inp).acks = w.acks ++ [Ack.userNotFound] ∧
    (decisionStep w inp).publicMsgs = w.publicMsgs ∧
    (decisionStep w inp).modMsg = w.modMsg := by
  simp [decisionStep, verify_button, hk, h, hm, get_points_add]

/-- Witness for C7 at a concrete input: balance 4 before the approve, the
member cannot be fetched; the balance still becomes 5 and the actor gets
the "User not found." ephemeral. -/
theorem c7_witness :
    ({ db := fun k => if k = ((1 : Int), (2 : Int)) then some 4 else none,
       guildId := 1, memberId := 2, locked := false, fileExists := true,
       publicMsgs := [], modMsg := ModMsg.pending,
       acks := [] : CaseWorld }.locked = false) ∧
    (DecisionInput.mk DecisionKind.approve 7 false true).kind = DecisionKind.approve ∧
    (DecisionInput.mk DecisionKind.approve 7 false true).memberFound = false ∧
    (get_points (decisionStep
        { db := fun k => if k = ((1 : Int), (2 : Int)) then some 4 else none,
          guildId := 1, memberId := 2, locked := false, fileExists := true,
          publicMsgs := [], modMsg := ModMsg.pending, acks := [] }
        (DecisionInput.mk DecisionKind.approve 7 false true)).db ((1 : Int), (2 : Int)) =
      get_points (fun k => if k = ((1 : Int), (2 : Int)) then some 4 else none)
        ((1 : Int), (2 : Int)) + 1 ∧
    (decisionStep
        { db := fun k => if k = ((1 : Int), (2 : Int)) then some 4 else none,
          guildId := 1, memberId := 2, locked := false, fileExists := true,
          publicMsgs := [], modMsg := ModMsg.pending, acks := [] }
        (DecisionInput.mk DecisionKind.approve 7 false true)).acks =
      [] ++ [Ack.userNotFound] ∧
    (decisionStep
        { db := fun k => if k = ((1 : Int), (2 : Int)) then some 4 else none,
          guildId := 1, memberId := 2, locked := false, fileExists := true,
          publicMsgs := [], modMsg := ModMsg.pending, acks := [] }
        (DecisionInput.mk DecisionKind.approve 7 false true)).publicMsgs = [] ∧
    (decisionStep
        { db := fun k => if k = ((1 : Int), (2 : Int)) then some 4 else none,
          guildId := 1, memberId := 2, locked := false, fileExists := true,
          publicMsgs := [], modMsg := ModMsg.pending, acks := [] }
        (DecisionInput.mk DecisionKind.approve 7 false true)).modMsg = ModMsg.pending) :=
  ⟨rfl, rfl, rfl,
   c7_credit_not_rolled_back
     { db := fun k => if k = ((1 : Int), (2 : Int)) then some 4 else none,
       guildId := 1, memberId := 2, locked := false, fileExists := true,
       publicMsgs := [], modMsg := ModMsg.pending, acks := [] }
     (DecisionInput.mk DecisionKind.approve 7 false true) rfl rfl rfl⟩

/-- **C6.** Reject effect and frame, for the intended content of the edit
(the source's line 297 itself is a Python syntax error, see
`reject_button`): on a pending Case, when the public channel resolves,
reject publishes the rejection notice referencing the submitter, edits the
moderation message to the terminal rejected-by state with controls
removed, and performs no ledger mutation — the table is returned unchanged
and every member's balance is unchanged. -/
theorem c6_reject_frame (w : CaseWorld) (inp : DecisionInput)
    (h : w.locked = false) (hk : inp.kind = DecisionKind.reject)
    (hc : inp.publicChannelOk = true) :
    (decisionStep w inp).publicMsgs =
      w.publicMsgs ++ [PubMsg.rejectedNotice w.memberId] ∧
    (decisionStep w inp).modMsg = ModMsg.rejectedBy inp.actor w.memberId ∧
    (decisionStep w inp).db = w.db ∧
    ∀ k, get_points (decisionStep w inp).db k = get_points w.db k := by
  refine ⟨?_, ?_, ?_, ?_⟩ <;>
    simp [decisionStep, reject_button, hk, h, hc]

/-- Witness for C6 at a concrete input: a pending Case with balance 4 for
the submitter; reject posts the notice, terminalizes the moderation
message, and leaves the ledger untouched. -/
theorem c6_witness :
    ({ db := fun k => if k = ((1 : Int), (2 : Int)) then some 4 else none,
       guildId := 1, memberId := 2, locked := false, fileExists := true,
       publicMsgs := [], modMsg := ModMsg.pending,
       acks := [] : CaseWorld }.locked = false) ∧
    (DecisionInput.mk DecisionKind.reject 7 true true).kind = DecisionKind.reject ∧
    (DecisionInput.mk DecisionKind.reject 7 true true).publicChannelOk = true ∧
    ((decisionStep
        { db := fun k => if k = ((1 : Int), (2 : Int)) then some 4 else none,
          guildId := 1, memberId := 2, locked := false, fileExists := true,
          publicMsgs := [], modMsg := ModMsg.pending, acks := [] }
        (DecisionInput.mk DecisionKind.reject 7 true true)).publicMsgs =
      [] ++ [PubMsg.rejectedNotice 2] ∧
    (decisionStep
        { db := fun k => if k = ((1 : Int), (2 : Int)) then some 4 else none,
          guildId := 1, memberId := 2, locked := false, fileExists := true,
          publicMsgs := [], modMsg := ModMsg.pending, acks := [] }
        (DecisionInput.mk DecisionKind.reject 7 true true)).modMsg =
      ModMsg.rejectedBy 7 2 ∧
    (decisionStep
        { db := fun k => if k = ((1 : Int), (2 : Int)) then some 4 else none,
          guildId := 1, memberId := 2, locked := false, fileExists := true,
          publicMsgs := [], modMsg := ModMsg.pending, acks := [] }
        (DecisionInput.mk DecisionKind.reject 7 true true)).db =
      (fun k => if k = ((1 : Int), (2 : Int)) then some 4 else none) ∧
    ∀ k, get_points (decisionStep
        { db := fun k => if k = ((1 : Int), (2 : Int)) then some 4 else none,
          guildId := 1, memberId := 2, locked := false, fileExists := true,
          publicMsgs := [], modMsg := ModMsg.pending, acks := [] }
        (DecisionInput.mk DecisionKind.reject 7 true true)).db k =
      get_points (fun k => if k = ((1 : Int), (2 : Int)) then some 4 else none) k) :=
  ⟨rfl, rfl, rfl,
   c6_reject_frame
     { db := fun k => if k = ((1 : Int), (2 : Int)) then some 4 else none,
       guildId := 1, memberId := 2, locked := false, fileExists := true,
       publicMsgs := [], modMsg := ModMsg.pending, acks := [] }
     (DecisionInput.mk DecisionKind.reject 7 true true) rfl rfl rfl⟩

/-!
Submission intake: the `on_message` handler (bot.py lines 316-368).  For a
vouch submission it saves the attachment to `temp/user_{id}.png`, requires
`logo.png` to exist (no fallback), runs `overlay_logo` to
`temp/processed_{id}.jpg`, publishes the review message carrying the
`VouchView`, and deletes the original message.  Errors raised inside the
`try` are swallowed by the generic `except`; the `finally` removes only
the raw `user_img` — the watermarked `out_img` is owned by the published
`VouchView`, which deletes it in `_cleanup_local_file` when a decision
lands.  `overlay_logo` (lines 207-221) is modelled as creating its output
file exactly when it returns True.
-/

/-- Platform and pipeline conditions for one inbound message event. -/
structure IntakeEnv where
  authorIsBot : Bool       -- message.author.bot
  inTargetChannel : Bool   -- message.channel.id == TARGET_CHANNEL_ID
  hasAttachment : Bool     -- message.attachments nonempty
  contentTypeImage : Bool  -- first attachment content_type startswith image/
  reviewChannelOk : Bool   -- bot.get_channel(REVIEW_CHANNEL_ID) is not None
  saveOk : Bool            -- attachment.save(user_img) succeeds
  logoExists : Bool        -- os.path.exists(LOGO_PATH)
  overlayOk : Bool         -- overlay_logo(...) returns True
  publishOk : Bool         -- review_channel.send(...) succeeds
  deleteOk : Bool          -- message.delete() succeeds
  deriving DecidableEq, Repr

/-- A timed error notice sent back to the submission channel. -/
inductive IntakeNotice where
  | logoMissing      -- "Logo missing. Please add logo.png."
  | processingError  -- "{author}, error processing your image."
  deriving DecidableEq, Repr

/-- Observable outcome of one `on_message` event after the handler (and
its `finally` block) finishes. -/
structure IntakeResult where
  userImgExists : Bool           -- temp/user_{id}.png still on disk
  outImgExists : Bool            -- temp/processed_{id}.jpg still on disk
  caseCreated : Bool             -- review message with live VouchView published
  notice : Option IntakeNotice   -- timed error sent to the channel, if any
  origDeleted : Bool             -- original submission message deleted
  fellThroughToCommands : Bool   -- reached bot.process_commands
  deriving DecidableEq, Repr

/-- Embedding of `on_message` (bot.py lines 316-368), one branch per exit
path of the handler. -/
def on_message (env : IntakeEnv) : IntakeResult :=
  if env.authorIsBot then
    { userImgExists := false, outImgExists := false, caseCreated := false,
      notice := none, origDeleted := false, fellThroughToCommands := false }
  else if !(env.inTargetChannel && env.hasAttachment && env.contentTypeImage) then
    { userImgExists := false, outImgExists := false, caseCreated := false,
      notice := none, origDeleted := false, fellThroughToCommands := true }
  else if !env.reviewChannelOk then
    { userImgExists := false, outImgExists := false, caseCreated := false,
      notice := none, origDeleted := false, fellThroughToCommands := false }
  else if !env.saveOk then
    { userImgExists := false, outImgExists := false, caseCreated := false,
      notice := none, origDeleted := false, fellThroughToCommands := false }
  else if !env.logoExists then
    { userImgExists := false, outImgExists := false, caseCreated := false,
      notice := some IntakeNotice.logoMissing, origDeleted := false,
      fellThroughToCommands := false }
  else if !env.overlayOk then
    { userImgExists := false, outImgExists := false, caseCreated := false,
      notice := some IntakeNotice.processingError, origDeleted := false,
      fellThroughToCommands := false }
  else if !env.publishOk then
    { userImgExists := false, outImgExists := true, caseCreated := false,
      notice := none, origDeleted := false, fellThroughToCommands := false }
  else
    { userImgExists := false, outImgExists := true, caseCreated := true,
      notice := none, origDeleted := env.deleteOk,
      fellThroughToCommands := false }

/-- **C5 counterexample.** The claimed text-mark fallback does not exist:
on a valid submission with the mark asset file absent (`logoExists =
false`, everything else fine), `on_message` sends the timed "Logo
missing" notice and returns — no watermarked image is produced and no
Review Case is opened. -/
theorem c5_counterexample :
    (IntakeEnv.mk false true true true true true false true true true).logoExists
        = false ∧
    (on_message (IntakeEnv.mk false true true true true true false true true true)).caseCreated
        = false ∧
    (on_message (IntakeEnv.mk false true true true true true false true true true)).outImgExists
        = false ∧
    (on_message (IntakeEnv.mk false true true true true true false true true true)).notice
        = some IntakeNotice.logoMissing := by
  decide

/-- **C5 (amended).** If no mark asset is available (the configured
`logo.png` is absent), the pipeline is never run: intake sends a timed
"Logo missing" notice to the submission channel and drops the submission —
no watermarked image is produced, no Review Case is opened, the original
message is not deleted, and no temporary file is left behind. -/
theorem c5_no_logo_drops_submission (env : IntakeEnv)
    (hbot : env.authorIsBot = false) (hchan : env.inTargetChannel = true)
    (hatt : env.hasAttachment = true) (hct : env.contentTypeImage = true)
    (hrev : env.reviewChannelOk = true) (hsave : env.saveOk = true)
    (hlogo : env.logoExists = false) :
    on_message env =
      { userImgExists := false, outImgExists := false, caseCreated := false,
        notice := some IntakeNotice.logoMissing, origDeleted := false,
        fellThroughToCommands := false } := by
  simp [on_message, hbot, hchan, hatt, hct, hrev, hsave, hlogo]

/-- Witness for the amended C5 at the concrete environment of the
counterexample. -/
theorem c5_witness :
    ((IntakeEnv.mk false true true true true true false true true true).authorIsBot
        = false ∧
     (IntakeEnv.mk false true true true true true false true true true).logoExists
        = false) ∧
    on_message (IntakeEnv.mk false true true true true true false true true true) =
      { userImgExists := false, outImgExists := false, caseCreated := false,
        notice := some IntakeNotice.logoMissing, origDeleted := false,
        fellThroughToCommands := false } :=
  ⟨⟨rfl, rfl⟩,
   c5_no_logo_drops_submission
     (IntakeEnv.mk false true true true true true false true true true)
     rfl rfl rfl rfl rfl rfl rfl⟩

/-- **C9 counterexample.** The release guarantee fails as stated on the
publish-failure path: on a valid submission where watermarking succeeded
but `review_channel.send` raised (`publishOk = false`), the handler's
`finally` removes only the raw file — the watermarked
`temp/processed_{id}.jpg` is left behind with no Review Case to ever
delete it. -/
theorem c9_counterexample :
    (IntakeEnv.mk false true true true true true true true false true).publishOk
        = false ∧
    (on_message (IntakeEnv.mk false true true true true true true true false true)).caseCreated
        = false ∧
    (on_message (IntakeEnv.mk false true true true true true true true false true)).outImgExists
        = true := by
  decide

/-- **C9 (amended).** Temporary artifact release, as the code actually
guarantees it: (1) the raw temp file is deleted on every exit path of
`on_message`; (2) the watermarked temp file survives intake without a
created Case exactly on the publish-failure path — every other intake
failure leaves no watermarked file behind; (3) on a Case, any decision on
a pending (unlatched) view deletes the watermarked file unconditionally —
in particular even when the member lookup or the public channel lookup
failed — while a latched view's no-op acknowledgment leaves the file
state unchanged. -/
theorem c9_cleanup_paths :
    (∀ env : IntakeEnv, (on_message env).userImgExists = false) ∧
    (∀ env : IntakeEnv,
      ((on_message env).outImgExists && !(on_message env).caseCreated) =
        (!env.authorIsBot && env.inTargetChannel && env.hasAttachment &&
         env.contentTypeImage && env.reviewChannelOk && env.saveOk &&
         env.logoExists && env.overlayOk && !env.publishOk)) ∧
    (∀ (w : CaseWorld) (d : DecisionInput),
      (decisionStep w d).fileExists = (w.locked && w.fileExists)) := by
  refine ⟨?_, ?_, ?_⟩
  · rintro ⟨a, b, c, d, e, f, g, h, i, j⟩
    cases a <;> cases b <;> cases c <;> cases d <;> cases e <;> cases f <;>
      cases g <;> cases h <;> cases i <;> rfl
  · rintro ⟨a, b, c, d, e, f, g, h, i, j⟩
    cases a <;> cases b <;> cases c <;> cases d <;> cases e <;> cases f <;>
      cases g <;> cases h <;> cases i <;> rfl
  · intro w d
    cases hl : w.locked with
    | true =>
      cases hk : d.kind <;>
        simp [decisionStep, verify_button, reject_button, hk, hl]
    | false =>
      cases hk : d.kind with
      | approve =>
        cases hm : d.memberFound <;>
          simp [decisionStep, verify_button, hk, hl, hm]
      | reject =>
        simp [decisionStep, reject_button, hk, hl]
